import Mathlib

/-!
Shallow embedding of the EK-SMS user module
(`apps/api/src/app/modules/users/{service,repository,schemas}.py`).

The backing store is modelled as a `List User` (the session's users table);
each service operation is a pure function from the current table to either a
typed service error or a result together with the post-state of the table.
-/

set_option maxRecDepth 4000

namespace EKSMS

/-- Modelled from the spec: `app.core.security` is not among the sources.
The spec (section 6) treats the password primitive as an opaque one-way hash
with a matching verify function that checks a candidate password against a
stored digest.  We model the digest as an opaque wrapper around the password,
which gives exactly the contract the spec states: `verify_password p h` holds
iff `h` is the hash of `p`. -/
structure PwHash where
  digest : String
deriving DecidableEq, Repr

/-- Modelled from the spec: the one-way hash (`hash_password` in
`app.core.security`). -/
def hash_password (p : String) : PwHash :=
  PwHash.mk p

/-- Modelled from the spec: the verify counterpart (`verify_password` in
`app.core.security`): checks a candidate password against a stored digest. -/
def verify_password (p : String) (h : PwHash) : Bool :=
  hash_password p == h

/-- Modelled from the spec: `app.modules.users.models.UserRole` is not among
the sources; the spec (section 3) requires an enumerated role with at minimum a
default unprivileged role (the schemas default to STUDENT) plus others. -/
inductive UserRole
  | student
  | teacher
  | admin
deriving DecidableEq, Repr

/-- Modelled from the spec: `app.modules.users.models.User` is not among the
sources.  Fields follow the spec's data model (section 3): identity, one-way
password hash, email (stored lowercase), names, optional phone, role, the
active/verified/two-factor flags, and the creation timestamp (modelled as a
`Nat`, used for the list ordering).  The store-maintained `updated_at` audit
column is server-assigned on every write and plays no role in the service
logic, so it is omitted. -/
structure User where
  id : String
  email : String
  first_name : String
  last_name : String
  phone : Option String
  role : UserRole
  password_hash : PwHash
  is_active : Bool
  is_verified : Bool
  is_two_factor_enabled : Bool
  created_at : Nat
deriving DecidableEq, Repr

/-- The error taxonomy of `service.py`: `UserNotFoundError`,
`UserAlreadyExistsError`, `InvalidPasswordError` and the base
`UserServiceError` (raised directly for the deactivated-account case), each
carrying its message string. -/
inductive SvcError
  | userNotFound (msg : String)
  | userAlreadyExists (msg : String)
  | invalidPassword (msg : String)
  | userServiceError (msg : String)
deriving DecidableEq, Repr

/-- Embeds `schemas.UserCreate`: email, names, optional phone, role, password. -/
structure UserCreate where
  email : String
  first_name : String
  last_name : String
  phone : Option String
  role : UserRole
  password : String
deriving DecidableEq, Repr

/-- Embeds `schemas.UserUpdate`: all fields optional. -/
structure UserUpdate where
  email : Option String := none
  first_name : Option String := none
  last_name : Option String := none
  phone : Option String := none
  role : Option UserRole := none
  is_active : Option Bool := none
deriving DecidableEq, Repr

/-- Python `str.lower()`, modelled charwise (`String.toLower` in core is
defined by well-founded recursion and does not reduce, so the embedding uses
an equivalent structural definition). -/
def strLower (s : String) : String :=
  String.mk (s.data.map Char.toLower)

/-- Python truthiness of an `Optional[str]`: `None` and `""` are falsy. -/
def strOptTruthy : Option String → Bool
  | none => false
  | some s => s != ""

/-- The string carried by an `Optional[str]`; only ever read under a
truthiness guard, so the `none` default is never observable. -/
def optStr : Option String → String
  | none => ""
  | some s => s

namespace UserRepository

/-- Embeds `UserRepository.get_by_id`: first row whose id matches. -/
def get_by_id (db : List User) (user_id : String) : Option User :=
  db.find? (fun u => u.id == user_id)

/-- Embeds `UserRepository.get_by_email`: first row whose stored email equals the
lowercased argument. -/
def get_by_email (db : List User) (email : String) : Option User :=
  db.find? (fun u => u.email == strLower email)

/-- Embeds `UserRepository.get_by_phone`: first row whose phone matches exactly. -/
def get_by_phone (db : List User) (phone : String) : Option User :=
  db.find? (fun u => u.phone == some phone)

/-- Embeds `UserRepository.exists_by_email`: `count(*) where email = lower(arg) > 0`. -/
def exists_by_email (db : List User) (email : String) : Bool :=
  decide (0 < (db.filter (fun u => u.email == strLower email)).length)

/-- Embeds `UserRepository.exists_by_phone`: `count(*) where phone = arg > 0`. -/
def exists_by_phone (db : List User) (phone : String) : Bool :=
  decide (0 < (db.filter (fun u => u.phone == some phone)).length)

/-- The SQL ordering key of `UserRepository.list`: creation time descending. -/
def createdGe (a b : User) : Prop :=
  b.created_at ≤ a.created_at

instance : DecidableRel createdGe :=
  fun a b => Nat.decLe b.created_at a.created_at

instance : IsTotal User createdGe :=
  ⟨fun a b => Nat.le_total b.created_at a.created_at⟩

instance : IsTrans User createdGe :=
  ⟨fun _ _ _ h1 h2 => Nat.le_trans h2 h1⟩

/-- The optional `is_active` filter applied by `UserRepository.list` to both
the count query and the page query. -/
def filterActive (db : List User) (is_active : Option Bool) : List User :=
  match is_active with
  | none => db
  | some b => db.filter (fun u => u.is_active == b)

/-- Embeds `UserRepository.list`: the filtered total count, and the page obtained by
ordering the filtered rows by `created_at` descending, then applying
`OFFSET skip LIMIT limit`. -/
def list (db : List User) (skip limit : Nat) (is_active : Option Bool) :
    List User × Nat :=
  let filtered := filterActive db is_active
  (((List.insertionSort createdGe filtered).drop skip).take limit,
    filtered.length)

/-- Embeds `UserRepository.update` (flush + refresh): the in-place mutation of the
loaded ORM row is persisted; in the list model, the row with the entity's id
now holds the mutated entity. -/
def replaceUser (db : List User) (u : User) : List User :=
  db.map (fun v => if v.id == u.id then u else v)

end UserRepository

namespace UserService

open UserRepository

/-- The post-state of the users table after a service call: unchanged when the
call raised, the returned table otherwise. -/
def postState (db : List User) (r : Except SvcError (List User × User)) :
    List User :=
  match r with
  | .ok (db2, _) => db2
  | .error _ => db

/-- The entity constructed by `UserService.create` (the `User(...)` call):
lowercased email, hashed password, server-assigned id and creation timestamp,
and the entity constructor's default flags (active, not verified, no 2FA). -/
def mkNewUser (newId : String) (now : Nat) (data : UserCreate) : User :=
  { id := newId
    email := strLower data.email
    first_name := data.first_name
    last_name := data.last_name
    phone := data.phone
    role := data.role
    password_hash := hash_password data.password
    is_active := true
    is_verified := false
    is_two_factor_enabled := false
    created_at := now }

/-- Embeds `UserService.create`: email-uniqueness check, then (if a phone was
supplied, by truthiness) phone-uniqueness check, then construct and insert. -/
def create (db : List User) (newId : String) (now : Nat) (data : UserCreate) :
    Except SvcError (List User × User) :=
  if exists_by_email db data.email then
    .error (.userAlreadyExists
      ("User with email " ++ data.email ++ " already exists"))
  else if strOptTruthy data.phone && exists_by_phone db (optStr data.phone) then
    .error (.userAlreadyExists
      ("User with phone " ++ optStr data.phone ++ " already exists"))
  else
    .ok (db ++ [mkNewUser newId now data], mkNewUser newId now data)

/-- Embeds `UserService.update`, email step: if the patch's email is truthy and its
lowercase differs from the current stored email, check uniqueness and assign
the lowercased value. -/
def applyEmail (db : List User) (user : User) (data : UserUpdate) :
    Except SvcError User :=
  if strOptTruthy data.email && (strLower (optStr data.email) != user.email) then
    if exists_by_email db (optStr data.email) then
      .error (.userAlreadyExists
        ("User with email " ++ optStr data.email ++ " already exists"))
    else
      .ok { user with email := strLower (optStr data.email) }
  else
    .ok user

/-- Embeds `UserService.update`, phone step: if the patch's phone is truthy and
differs from the current stored phone, check uniqueness and assign. -/
def applyPhone (db : List User) (user : User) (data : UserUpdate) :
    Except SvcError User :=
  if strOptTruthy data.phone && (data.phone != user.phone) then
    if exists_by_phone db (optStr data.phone) then
      .error (.userAlreadyExists
        ("User with phone " ++ optStr data.phone ++ " already exists"))
    else
      .ok { user with phone := data.phone }
  else
    .ok user

/-- Embeds `UserService.update`, remaining fields: first/last name, role and active
flag are assigned whenever present in the patch (`is not None`). -/
def applyRest (user : User) (data : UserUpdate) : User :=
  let u1 := match data.first_name with
    | none => user
    | some v => { user with first_name := v }
  let u2 := match data.last_name with
    | none => u1
    | some v => { u1 with last_name := v }
  let u3 := match data.role with
    | none => u2
    | some v => { u2 with role := v }
  match data.is_active with
  | none => u3
  | some v => { u3 with is_active := v }

/-- Embeds `UserService.update`: load by id (`NotFound` if absent), run the email and
phone steps (each may raise `AlreadyExists`), assign the remaining present
fields, persist. -/
def update (db : List User) (user_id : String) (data : UserUpdate) :
    Except SvcError (List User × User) :=
  match get_by_id db user_id with
  | none => .error (.userNotFound ("User with ID " ++ user_id ++ " not found"))
  | some user =>
    match applyEmail db user data with
    | .error e => .error e
    | .ok user1 =>
      match applyPhone db user1 data with
      | .error e => .error e
      | .ok user2 =>
        let user3 := applyRest user2 data
        .ok (replaceUser db user3, user3)

/-- Embeds `UserService.update_password`: load by id (`NotFound` if absent), verify
the current password (`InvalidPassword` on mismatch), replace the hash,
persist. -/
def update_password (db : List User) (user_id current_password
    new_password : String) : Except SvcError (List User × User) :=
  match get_by_id db user_id with
  | none => .error (.userNotFound ("User with ID " ++ user_id ++ " not found"))
  | some user =>
    if !(verify_password current_password user.password_hash) then
      .error (.invalidPassword "Current password is incorrect")
    else
      let user2 := { user with password_hash := hash_password new_password }
      .ok (replaceUser db user2, user2)

/-- Embeds `UserService.verify_credentials`: lookup by email (`NotFound` if absent),
verify the password (`InvalidPassword` on mismatch), reject deactivated
accounts (generic `UserServiceError`), otherwise return the user. -/
def verify_credentials (db : List User) (email password : String) :
    Except SvcError User :=
  match get_by_email db email with
  | none => .error (.userNotFound "Invalid email or password")
  | some user =>
    if !(verify_password password user.password_hash) then
      .error (.invalidPassword "Invalid email or password")
    else if !user.is_active then
      .error (.userServiceError "User account is deactivated")
    else
      .ok user

/-- Embeds `UserService.list`: converts the 1-based page to an offset and delegates
to the repository. -/
def listUsers (db : List User) (page page_size : Nat)
    (is_active : Option Bool) : List User × Nat :=
  UserRepository.list db ((page - 1) * page_size) page_size is_active

end UserService

/-- A sample active user, used as concrete input by the witnesses below. -/
def sampleActive : User :=
  { id := "u1"
    email := "alice@example.com"
    first_name := "Alice"
    last_name := "Smith"
    phone := some "111"
    role := UserRole.student
    password_hash := hash_password "password123"
    is_active := true
    is_verified := false
    is_two_factor_enabled := false
    created_at := 10 }

/-- A sample deactivated user, used as concrete input by the witnesses below. -/
def sampleInactive : User :=
  { id := "u2"
    email := "bob@example.com"
    first_name := "Bob"
    last_name := "Jones"
    phone := some "222"
    role := UserRole.teacher
    password_hash := hash_password "password123"
    is_active := false
    is_verified := false
    is_two_factor_enabled := false
    created_at := 20 }

/-- A sample two-user table, used as concrete input by the witnesses below. -/
def sampleDb : List User :=
  [sampleActive, sampleInactive]

/-- The creation input of the C2 scenario: user A with email
`Alice@Example.com`. -/
def aliceCreate : UserCreate :=
  { email := "Alice@Example.com"
    first_name := "Alice"
    last_name := "Smith"
    phone := none
    role := UserRole.student
    password := "password123" }

/-- The creation input of the second create in the C2 scenario: user B with
email `alice@example.com`. -/
def secondCreate : UserCreate :=
  { email := "alice@example.com"
    first_name := "Alicia"
    last_name := "Brown"
    phone := none
    role := UserRole.student
    password := "password456" }

/-- The table after the C2 scenario's first create (user A inserted into an
empty table). -/
def aliceDb : List User :=
  UserService.postState [] (UserService.create [] "u1" 0 aliceCreate)

/-- An update patch carrying only an email (all other fields absent). -/
def emailPatch (e : String) : UserUpdate :=
  { email := some e }

/-- The empty update patch: every optional field absent. -/
def emptyPatch : UserUpdate :=
  {}

/-- A creation input with email and phone unused by the sample table, used by
the C7 witness. -/
def carolCreate : UserCreate :=
  { email := "Carol@Example.com"
    first_name := "Carol"
    last_name := "Davis"
    phone := some "333"
    role := UserRole.teacher
    password := "password789" }

/-- A creation input whose email and phone both collide with stored users of
the sample table, used by the C8 witness. -/
def dupBothCreate : UserCreate :=
  { email := "Alice@Example.com"
    first_name := "Dora"
    last_name := "Evans"
    phone := some "222"
    role := UserRole.student
    password := "password000" }

/-- A sample patch carrying only a first name, used by the C9 witness. -/
def samplePatch : UserUpdate :=
  { first_name := some "Alicia" }

/-- The sample active user after `samplePatch` is applied. -/
def samplePatched : User :=
  { sampleActive with first_name := "Alicia" }

end EKSMS

namespace EKSMS

open UserRepository UserService

/-- C1: `verify_credentials(email, password)` performs exactly three checks in
order and returns the user only when all pass: no matching email fails with
`NotFound`; a found user whose stored hash does not verify the password fails
with `InvalidPassword`; a correct password on an `is_active = false` user
fails with the generic service error; no failure case returns a user (an
`Except.error` carries no user), and a returned user passed all three
checks. -/
theorem C1_verify_credentials_checks (db : List User) (email password : String) :
    (get_by_email db email = none →
      verify_credentials db email password
        = .error (.userNotFound "Invalid email or password")) ∧
    (∀ u, get_by_email db email = some u →
      verify_password password u.password_hash = false →
      verify_credentials db email password
        = .error (.invalidPassword "Invalid email or password")) ∧
    (∀ u, get_by_email db email = some u →
      verify_password password u.password_hash = true →
      u.is_active = false →
      verify_credentials db email password
        = .error (.userServiceError "User account is deactivated")) ∧
    (∀ u, verify_credentials db email password = .ok u →
      get_by_email db email = some u ∧
      verify_password password u.password_hash = true ∧
      u.is_active = true) := by
  refine ⟨fun h => ?_, fun u hu hv => ?_, fun u hu hv ha => ?_, fun u h => ?_⟩
  · simp [verify_credentials, h]
  · simp [verify_credentials, hu, hv]
  · simp [verify_credentials, hu, hv, ha]
  · unfold verify_credentials at h
    cases hm : get_by_email db email with
    | none => rw [hm] at h; exact absurd h (by simp)
    | some v =>
      rw [hm] at h
      by_cases hv : verify_password password v.password_hash
      · by_cases ha : v.is_active
        · simp [hv, ha] at h
          subst h
          exact ⟨rfl, hv, ha⟩
        · simp [hv, ha] at h
      · simp [hv] at h

/-- Witness for C1: on the sample table, the deactivated user with the correct
password is rejected with the generic service error. -/
theorem C1_witness :
    get_by_email sampleDb "bob@example.com" = some sampleInactive ∧
    verify_password "password123" sampleInactive.password_hash = true ∧
    sampleInactive.is_active = false ∧
    verify_credentials sampleDb "bob@example.com" "password123"
      = .error (.userServiceError "User account is deactivated") :=
  ⟨by decide, by decide, by decide,
    (C1_verify_credentials_checks sampleDb "bob@example.com" "password123").2.2.1
      sampleInactive (by decide) (by decide) (by decide)⟩

/-- A stored user whose email equals the lowercase of a query string makes
`exists_by_email` answer true. -/
theorem mem_exists_by_email (db : List User) (u : User) (e : String)
    (hu : u ∈ db) (he : u.email = strLower e) :
    exists_by_email db e = true := by
  have hf : u ∈ db.filter (fun v => v.email == strLower e) :=
    List.mem_filter.mpr ⟨hu, by simp [he]⟩
  unfold exists_by_email
  exact decide_eq_true (List.length_pos.mpr (List.ne_nil_of_mem hf))

/-- C2: a creation input whose email matches a stored user's email
case-insensitively (stored emails being normalized to lowercase) makes
`create` fail with `AlreadyExists`, and the stored table is unchanged (no new
record is persisted). -/
theorem C2_create_duplicate_email (db : List User) (newId : String) (now : Nat)
    (data : UserCreate) (u : User) (hu : u ∈ db)
    (hnorm : strLower u.email = u.email)
    (hmatch : strLower u.email = strLower data.email) :
    create db newId now data
      = .error (.userAlreadyExists
          ("User with email " ++ data.email ++ " already exists")) ∧
    postState db (create db newId now data) = db := by
  have he : exists_by_email db data.email = true :=
    mem_exists_by_email db u data.email hu (by rw [← hnorm]; exact hmatch)
  constructor
  · simp [create, he]
  · simp [postState, create, he]

/-- Witness for C2, the spec's scenario: after creating a user with email
`Alice@Example.com` into an empty table, `exists_by_email` answers true for
`alice@example.com`, and a second create with email `alice@example.com` fails
with `AlreadyExists`, leaving the table unchanged. -/
theorem C2_witness :
    UserService.mkNewUser "u1" 0 aliceCreate ∈ aliceDb ∧
    strLower (UserService.mkNewUser "u1" 0 aliceCreate).email
      = (UserService.mkNewUser "u1" 0 aliceCreate).email ∧
    strLower (UserService.mkNewUser "u1" 0 aliceCreate).email
      = strLower secondCreate.email ∧
    exists_by_email aliceDb "alice@example.com" = true ∧
    create aliceDb "u2" 1 secondCreate
      = .error (.userAlreadyExists
          ("User with email " ++ secondCreate.email ++ " already exists")) ∧
    postState aliceDb (create aliceDb "u2" 1 secondCreate) = aliceDb :=
  ⟨by decide, by decide, by decide, by decide,
    (C2_create_duplicate_email aliceDb "u2" 1 secondCreate
      (UserService.mkNewUser "u1" 0 aliceCreate)
      (by decide) (by decide) (by decide)).1,
    (C2_create_duplicate_email aliceDb "u2" 1 secondCreate
      (UserService.mkNewUser "u1" 0 aliceCreate)
      (by decide) (by decide) (by decide)).2⟩

/-- C3: for every page at least 1, page size and optional active filter, the
service list returns a total equal to the number of stored users matching the
filter (independent of page and page size), and the items are the slice of the
filtered users ordered by creation time descending, starting at offset
`(page - 1) * page_size`, of length at most `page_size`. -/
theorem C3_list_pagination (db : List User) (page page_size : Nat)
    (fil : Option Bool) (hp : 1 ≤ page) :
    (listUsers db page page_size fil).2 = (filterActive db fil).length ∧
    (listUsers db page page_size fil).1
      = ((List.insertionSort createdGe (filterActive db fil)).drop
          ((page - 1) * page_size)).take page_size ∧
    (listUsers db page page_size fil).1.length ≤ page_size ∧
    (List.insertionSort createdGe (filterActive db fil)).Perm
      (filterActive db fil) ∧
    List.Sorted createdGe (List.insertionSort createdGe (filterActive db fil)) := by
  refine ⟨rfl, rfl, ?_, List.perm_insertionSort _ _,
    List.sorted_insertionSort _ _⟩
  exact List.length_take_le _ _

/-- Witness for C3: on the sample table with page 2 of size 1, the service
returns the second most-recently-created user and the unfiltered total. -/
theorem C3_witness :
    1 ≤ 2 ∧
    ((listUsers sampleDb 2 1 none).2 = (filterActive sampleDb none).length ∧
     (listUsers sampleDb 2 1 none).1
       = ((List.insertionSort createdGe (filterActive sampleDb none)).drop
           ((2 - 1) * 1)).take 1 ∧
     (listUsers sampleDb 2 1 none).1.length ≤ 1 ∧
     (List.insertionSort createdGe (filterActive sampleDb none)).Perm
       (filterActive sampleDb none) ∧
     List.Sorted createdGe
       (List.insertionSort createdGe (filterActive sampleDb none))) :=
  ⟨by decide, C3_list_pagination sampleDb 2 1 none (by decide)⟩

/-- C4: `update_password` with a current password that does not verify against
the stored hash fails with `InvalidPassword`, and the stored table (hence the
user's hash and every other field) is unchanged. -/
theorem C4_update_password_wrong_current (db : List User)
    (uid current new : String) (user : User)
    (hu : get_by_id db uid = some user)
    (hv : verify_password current user.password_hash = false) :
    update_password db uid current new
      = .error (.invalidPassword "Current password is incorrect") ∧
    postState db (update_password db uid current new) = db := by
  constructor
  · simp [update_password, hu, hv]
  · simp [postState, update_password, hu, hv]

/-- Witness for C4: on the sample table, a wrong current password is rejected
and the table is unchanged. -/
theorem C4_witness :
    get_by_id sampleDb "u1" = some sampleActive ∧
    verify_password "wrongpass" sampleActive.password_hash = false ∧
    update_password sampleDb "u1" "wrongpass" "newpassword1"
      = .error (.invalidPassword "Current password is incorrect") ∧
    postState sampleDb (update_password sampleDb "u1" "wrongpass" "newpassword1")
      = sampleDb :=
  ⟨by decide, by decide,
    (C4_update_password_wrong_current sampleDb "u1" "wrongpass" "newpassword1"
      sampleActive (by decide) (by decide)).1,
    (C4_update_password_wrong_current sampleDb "u1" "wrongpass" "newpassword1"
      sampleActive (by decide) (by decide)).2⟩

/-- Persisting an in-place mutation of a loaded user (same id, same email)
leaves the email lookup pointing at the mutated row. -/
theorem get_by_email_replaceUser (db : List User) (user u2 : User)
    (hidu : u2.id = user.id) (hem : u2.email = user.email)
    (hlow : strLower user.email = user.email)
    (hmail : get_by_email db user.email = some user)
    (hid : get_by_id db user.id = some user) :
    get_by_email (replaceUser db u2) user.email = some u2 := by
  revert hmail hid
  induction db with
  | nil =>
    intro hmail _
    simp [get_by_email] at hmail
  | cons w rest ih =>
    intro hmail hid
    unfold get_by_email at hmail
    unfold get_by_id at hid
    cases hwe : (w.email == strLower user.email) with
    | true =>
      have hwu : w = user := by
        simp only [List.find?_cons, hwe] at hmail
        exact Option.some.inj hmail
      have hfid : (w.id == u2.id) = true := by
        rw [hwu, hidu]
        exact beq_self_eq_true user.id
      have hpe : (u2.email == strLower user.email) = true := by
        rw [hem, hlow]
        exact beq_self_eq_true user.email
      show List.find? (fun v => v.email == strLower user.email)
          ((if w.id == u2.id then u2 else w) :: replaceUser rest u2) = some u2
      rw [if_pos hfid]
      simp only [List.find?_cons, hpe]
    | false =>
      have hmail2 : get_by_email rest user.email = some user := by
        unfold get_by_email
        simp only [List.find?_cons, hwe] at hmail
        exact hmail
      have hwid : (w.id == user.id) = false := by
        cases hcon : (w.id == user.id) with
        | false => rfl
        | true =>
          exfalso
          have hwu : w = user := by
            simp only [List.find?_cons, hcon] at hid
            exact Option.some.inj hid
          rw [hwu, hlow, beq_self_eq_true user.email] at hwe
          exact Bool.noConfusion hwe
      have hid2 : get_by_id rest user.id = some user := by
        unfold get_by_id
        simp only [List.find?_cons, hwid] at hid
        exact hid
      have hfid : (w.id == u2.id) = false := by
        rw [hidu]
        exact hwid
      show List.find? (fun v => v.email == strLower user.email)
          ((if w.id == u2.id then u2 else w) :: replaceUser rest u2) = some u2
      rw [if_neg (by simp [hfid])]
      simp only [List.find?_cons, hwe]
      exact ih hmail2 hid2

/-- C5: for an active stored user with a lowercase-normalized email, after a
successful `update_password` with the correct current password and a distinct
new password, `verify_credentials` with the new password succeeds and with the
old password fails with `InvalidPassword`. -/
theorem C5_password_rotation (db : List User) (uid current new : String)
    (user : User)
    (hu : get_by_id db uid = some user)
    (hmail : get_by_email db user.email = some user)
    (hact : user.is_active = true)
    (hlow : strLower user.email = user.email)
    (hok : verify_password current user.password_hash = true)
    (hne : new ≠ current) :
    update_password db uid current new
      = .ok (replaceUser db { user with password_hash := hash_password new },
             { user with password_hash := hash_password new }) ∧
    verify_credentials
        (replaceUser db { user with password_hash := hash_password new })
        user.email new
      = .ok { user with password_hash := hash_password new } ∧
    verify_credentials
        (replaceUser db { user with password_hash := hash_password new })
        user.email current
      = .error (.invalidPassword "Invalid email or password") := by
  have hu2 : List.find? (fun u => u.id == uid) db = some user := hu
  have hbeq := List.find?_some hu2
  have huid : user.id = uid := eq_of_beq hbeq
  have hid2 : get_by_id db user.id = some user := by
    rw [huid]
    exact hu
  have hrep : get_by_email
      (replaceUser db { user with password_hash := hash_password new })
      user.email = some { user with password_hash := hash_password new } :=
    get_by_email_replaceUser db user _ rfl rfl hlow hmail hid2
  have hvc : verify_password current (hash_password new) = false := by
    simp only [verify_password, hash_password, beq_eq_false_iff_ne, ne_eq,
      PwHash.mk.injEq]
    exact fun h => hne h.symm
  refine ⟨?_, ?_, ?_⟩
  · simp [update_password, hu, hok]
  · simp only [verify_credentials]
    rw [hrep]
    simp [verify_password, hash_password, hact]
  · simp only [verify_credentials]
    rw [hrep]
    simp [hvc]

/-- Witness for C5: on the sample table, rotating the active user's password
from `password123` to `newpassword1` makes login succeed with the new password
and fail with the old one. -/
theorem C5_witness :
    get_by_id sampleDb "u1" = some sampleActive ∧
    get_by_email sampleDb sampleActive.email = some sampleActive ∧
    sampleActive.is_active = true ∧
    strLower sampleActive.email = sampleActive.email ∧
    verify_password "password123" sampleActive.password_hash = true ∧
    "newpassword1" ≠ "password123" ∧
    (update_password sampleDb "u1" "password123" "newpassword1"
      = .ok (replaceUser sampleDb
               { sampleActive with password_hash := hash_password "newpassword1" },
             { sampleActive with password_hash := hash_password "newpassword1" }) ∧
     verify_credentials
         (replaceUser sampleDb
           { sampleActive with password_hash := hash_password "newpassword1" })
         sampleActive.email "newpassword1"
       = .ok { sampleActive with password_hash := hash_password "newpassword1" } ∧
     verify_credentials
         (replaceUser sampleDb
           { sampleActive with password_hash := hash_password "newpassword1" })
         sampleActive.email "password123"
       = .error (.invalidPassword "Invalid email or password")) :=
  ⟨by decide, by decide, by decide, by decide, by decide, by decide,
    C5_password_rotation sampleDb "u1" "password123" "newpassword1" sampleActive
      (by decide) (by decide) (by decide) (by decide) (by decide) (by decide)⟩

/-- C6: `update` with a truthy patch email whose lowercase differs from the
target's stored email and equals an email stored for some user fails with
`AlreadyExists` and leaves the table unchanged; a patch email equal to the
target's own email up to case succeeds without the uniqueness check being
triggered — it succeeds even though `exists_by_email` answers true for that
very email. -/
theorem C6_update_email_uniqueness (db : List User) (uid e : String)
    (user : User) (data : UserUpdate)
    (hu : get_by_id db uid = some user)
    (hd : data.email = some e)
    (he : e ≠ "") :
    ((strLower e ≠ user.email ∧ ∃ v, v ∈ db ∧ v.email = strLower e) →
      update db uid data
        = .error (.userAlreadyExists
            ("User with email " ++ e ++ " already exists")) ∧
      postState db (update db uid data) = db) ∧
    (strLower e = user.email →
      exists_by_email db e = true ∧
      update db uid (emailPatch e) = .ok (replaceUser db user, user)) := by
  constructor
  · rintro ⟨hne, v, hv, hve⟩
    have hex : exists_by_email db e = true := mem_exists_by_email db v e hv hve
    have hae : applyEmail db user data
        = .error (.userAlreadyExists
            ("User with email " ++ e ++ " already exists")) := by
      unfold applyEmail
      rw [hd]
      simp [strOptTruthy, optStr, he, hne, hex]
    constructor
    · simp [update, hu, hae]
    · simp [postState, update, hu, hae]
  · intro heq
    have hu2 : List.find? (fun u => u.id == uid) db = some user := hu
    have hmem : user ∈ db := List.mem_of_find?_eq_some hu2
    refine ⟨mem_exists_by_email db user e hmem heq.symm, ?_⟩
    simp [update, hu, applyEmail, applyPhone, applyRest, emailPatch,
      strOptTruthy, optStr, heq]

/-- Witness for C6: on the sample table, changing the active user's email to
the deactivated user's (differently-cased) email fails with `AlreadyExists`
and changes nothing, while re-submitting the user's own email in different
case succeeds even though that email is taken. -/
theorem C6_witness :
    (update sampleDb "u1" (emailPatch "Bob@Example.com")
       = .error (.userAlreadyExists
           ("User with email " ++ "Bob@Example.com" ++ " already exists")) ∧
     postState sampleDb (update sampleDb "u1" (emailPatch "Bob@Example.com"))
       = sampleDb) ∧
    (exists_by_email sampleDb "Alice@Example.com" = true ∧
     update sampleDb "u1" (emailPatch "Alice@Example.com")
       = .ok (replaceUser sampleDb sampleActive, sampleActive)) :=
  ⟨(C6_update_email_uniqueness sampleDb "u1" "Bob@Example.com" sampleActive
      (emailPatch "Bob@Example.com") (by decide) rfl (by decide)).1
      ⟨by decide, sampleInactive, by decide, by decide⟩,
   (C6_update_email_uniqueness sampleDb "u1" "Alice@Example.com" sampleActive
      (emailPatch "Alice@Example.com") (by decide) rfl (by decide)).2
      (by decide)⟩

/-- C7: a valid creation input whose email is unused (no stored row matches
its lowercase) and whose phone, when truthy, is unused, makes `create` succeed
with the new entity appended, and the returned entity's email is the
lowercased input email. -/
theorem C7_create_unused (db : List User) (newId : String) (now : Nat)
    (data : UserCreate)
    (he : exists_by_email db data.email = false)
    (hp : strOptTruthy data.phone = true →
      exists_by_phone db (optStr data.phone) = false) :
    create db newId now data
      = .ok (db ++ [mkNewUser newId now data], mkNewUser newId now data) ∧
    (mkNewUser newId now data).email = strLower data.email := by
  refine ⟨?_, rfl⟩
  cases ht : strOptTruthy data.phone with
  | false => simp [create, he, ht]
  | true => simp [create, he, ht, hp ht]

/-- Witness for C7: creating a user with a fresh email and phone on the sample
table succeeds and returns the lowercased email. -/
theorem C7_witness :
    exists_by_email sampleDb carolCreate.email = false ∧
    (strOptTruthy carolCreate.phone = true →
      exists_by_phone sampleDb (optStr carolCreate.phone) = false) ∧
    (create sampleDb "u3" 30 carolCreate
       = .ok (sampleDb ++ [UserService.mkNewUser "u3" 30 carolCreate],
              UserService.mkNewUser "u3" 30 carolCreate) ∧
     (UserService.mkNewUser "u3" 30 carolCreate).email
       = strLower carolCreate.email) :=
  ⟨by decide, by decide,
    C7_create_unused sampleDb "u3" 30 carolCreate (by decide) (by decide)⟩

/-- C8: the email uniqueness check runs before the phone uniqueness check, and
the first violation is the one reported: when both the email and the (truthy)
phone collide with stored users, `create` fails with the email
`AlreadyExists` error. -/
theorem C8_email_checked_before_phone (db : List User) (newId : String)
    (now : Nat) (data : UserCreate)
    (he : exists_by_email db data.email = true)
    (ht : strOptTruthy data.phone = true)
    (hph : exists_by_phone db (optStr data.phone) = true) :
    create db newId now data
      = .error (.userAlreadyExists
          ("User with email " ++ data.email ++ " already exists")) := by
  simp [create, he]

/-- Witness for C8: a creation input colliding on both email and phone with
the sample table is rejected with the email error. -/
theorem C8_witness :
    exists_by_email sampleDb dupBothCreate.email = true ∧
    strOptTruthy dupBothCreate.phone = true ∧
    exists_by_phone sampleDb (optStr dupBothCreate.phone) = true ∧
    create sampleDb "u4" 40 dupBothCreate
      = .error (.userAlreadyExists
          ("User with email " ++ dupBothCreate.email ++ " already exists")) :=
  ⟨by decide, by decide, by decide,
    C8_email_checked_before_phone sampleDb "u4" 40 dupBothCreate
      (by decide) (by decide) (by decide)⟩

/-- Frame of the update email step: a successful step changes at most the
email, and only when the patch email is truthy. -/
theorem applyEmail_ok_fields (db : List User) (user : User) (data : UserUpdate)
    (u1 : User) (h : applyEmail db user data = .ok u1) :
    u1.id = user.id ∧ u1.first_name = user.first_name ∧
    u1.last_name = user.last_name ∧ u1.phone = user.phone ∧
    u1.role = user.role ∧ u1.password_hash = user.password_hash ∧
    u1.is_active = user.is_active ∧ u1.is_verified = user.is_verified ∧
    u1.is_two_factor_enabled = user.is_two_factor_enabled ∧
    u1.created_at = user.created_at ∧
    (strOptTruthy data.email = false → u1.email = user.email) := by
  unfold applyEmail at h
  by_cases hc : (strOptTruthy data.email
      && (strLower (optStr data.email) != user.email)) = true
  · rw [if_pos hc] at h
    by_cases hex : exists_by_email db (optStr data.email) = true
    · rw [if_pos hex] at h
      exact absurd h (by simp)
    · rw [if_neg hex] at h
      simp only [Except.ok.injEq] at h
      subst h
      refine ⟨rfl, rfl, rfl, rfl, rfl, rfl, rfl, rfl, rfl, rfl, fun hn => ?_⟩
      rw [hn] at hc
      simp at hc
  · rw [if_neg hc] at h
    simp only [Except.ok.injEq] at h
    subst h
    exact ⟨rfl, rfl, rfl, rfl, rfl, rfl, rfl, rfl, rfl, rfl, fun _ => rfl⟩

/-- Frame of the update phone step: a successful step changes at most the
phone; the phone is either kept or, when the patch phone is truthy, set to
it. -/
theorem applyPhone_ok_fields (db : List User) (user : User) (data : UserUpdate)
    (u1 : User) (h : applyPhone db user data = .ok u1) :
    u1.id = user.id ∧ u1.first_name = user.first_name ∧
    u1.last_name = user.last_name ∧ u1.email = user.email ∧
    u1.role = user.role ∧ u1.password_hash = user.password_hash ∧
    u1.is_active = user.is_active ∧ u1.is_verified = user.is_verified ∧
    u1.is_two_factor_enabled = user.is_two_factor_enabled ∧
    u1.created_at = user.created_at ∧
    (strOptTruthy data.phone = false → u1.phone = user.phone) ∧
    (u1.phone = user.phone ∨
      (strOptTruthy data.phone = true ∧ u1.phone = data.phone)) := by
  unfold applyPhone at h
  by_cases hc : (strOptTruthy data.phone && (data.phone != user.phone)) = true
  · rw [if_pos hc] at h
    by_cases hex : exists_by_phone db (optStr data.phone) = true
    · rw [if_pos hex] at h
      exact absurd h (by simp)
    · rw [if_neg hex] at h
      simp only [Except.ok.injEq] at h
      subst h
      refine ⟨rfl, rfl, rfl, rfl, rfl, rfl, rfl, rfl, rfl, rfl,
        fun hn => ?_, Or.inr ⟨?_, rfl⟩⟩
      · rw [hn] at hc
        simp at hc
      · exact (Bool.and_eq_true _ _ |>.mp hc).1
  · rw [if_neg hc] at h
    simp only [Except.ok.injEq] at h
    subst h
    exact ⟨rfl, rfl, rfl, rfl, rfl, rfl, rfl, rfl, rfl, rfl,
      fun _ => rfl, Or.inl rfl⟩

/-- Frame of the unconditional update fields: name, role and active flag are
kept when absent from the patch, every other field is always kept. -/
theorem applyRest_fields (user : User) (data : UserUpdate) :
    (applyRest user data).id = user.id ∧
    (applyRest user data).email = user.email ∧
    (applyRest user data).phone = user.phone ∧
    (applyRest user data).password_hash = user.password_hash ∧
    (applyRest user data).created_at = user.created_at ∧
    (applyRest user data).is_verified = user.is_verified ∧
    (applyRest user data).is_two_factor_enabled
      = user.is_two_factor_enabled ∧
    (data.first_name = none →
      (applyRest user data).first_name = user.first_name) ∧
    (data.last_name = none →
      (applyRest user data).last_name = user.last_name) ∧
    (data.role = none → (applyRest user data).role = user.role) ∧
    (data.is_active = none →
      (applyRest user data).is_active = user.is_active) := by
  unfold applyRest
  cases data.first_name <;> cases data.last_name <;> cases data.role <;>
    cases data.is_active <;> simp

/-- Persisting an unmodified loaded user leaves the table unchanged, provided
the loaded user is the only row with its id. -/
theorem replaceUser_self (db : List User) (user : User)
    (hid : ∀ v ∈ db, v.id = user.id → v = user) :
    replaceUser db user = db := by
  induction db with
  | nil => rfl
  | cons w rest ih =>
    have hw : (if w.id == user.id then user else w) = w := by
      by_cases h : (w.id == user.id) = true
      · rw [if_pos h]
        exact (hid w (List.mem_cons_self w rest) (eq_of_beq h)).symm
      · rw [if_neg h]
    show (if w.id == user.id then user else w) :: replaceUser rest user
        = w :: rest
    rw [hw, ih (fun v hv hvid => hid v (List.mem_cons_of_mem w hv) hvid)]

/-- Unfolding of `update` once the target user is known to load. -/
theorem update_match (db : List User) (uid : String) (data : UserUpdate)
    (user : User) (hu : get_by_id db uid = some user) :
    update db uid data
      = match applyEmail db user data with
        | .error e => .error e
        | .ok user1 =>
          match applyPhone db user1 data with
          | .error e => .error e
          | .ok user2 =>
            .ok (replaceUser db (applyRest user2 data), applyRest user2 data) := by
  unfold update
  rw [hu]

/-- C9: `update` with the empty patch succeeds and returns the table and the
entity unchanged (the loaded user being the only row with its id), and in
general every field absent from the patch keeps its prior value, while id,
password hash, creation time and the verification/2FA flags are never touched
by `update` (partial-update semantics). -/
theorem C9_empty_patch_and_frame (db : List User) (uid : String) (user : User)
    (hu : get_by_id db uid = some user)
    (hid : ∀ v ∈ db, v.id = user.id → v = user) :
    update db uid emptyPatch = .ok (db, user) ∧
    (∀ data : UserUpdate, ∀ db2 u2, update db uid data = .ok (db2, u2) →
      (data.email = none → u2.email = user.email) ∧
      (data.phone = none → u2.phone = user.phone) ∧
      (data.first_name = none → u2.first_name = user.first_name) ∧
      (data.last_name = none → u2.last_name = user.last_name) ∧
      (data.role = none → u2.role = user.role) ∧
      (data.is_active = none → u2.is_active = user.is_active) ∧
      u2.id = user.id ∧ u2.password_hash = user.password_hash ∧
      u2.created_at = user.created_at ∧ u2.is_verified = user.is_verified ∧
      u2.is_two_factor_enabled = user.is_two_factor_enabled) := by
  constructor
  · have hrep := replaceUser_self db user hid
    simp [update, hu, applyEmail, applyPhone, applyRest, emptyPatch,
      strOptTruthy, hrep]
  · intro data db2 u2 h
    rw [update_match db uid data user hu] at h
    cases hae : applyEmail db user data with
    | error e =>
      simp [hae] at h
    | ok user1 =>
      simp only [hae] at h
      cases hap : applyPhone db user1 data with
      | error e =>
        simp [hap] at h
      | ok user2 =>
        simp only [hap, Except.ok.injEq, Prod.mk.injEq] at h
        obtain ⟨hdb2, hu2⟩ := h
        obtain ⟨e_id, e_fn, e_ln, e_ph, e_rl, e_pw, e_ac, e_vf, e_tf, e_cr,
          e_em⟩ := applyEmail_ok_fields db user data user1 hae
        obtain ⟨p_id, p_fn, p_ln, p_em, p_rl, p_pw, p_ac, p_vf, p_tf, p_cr,
          p_ph, _⟩ := applyPhone_ok_fields db user1 data user2 hap
        obtain ⟨r_id, r_em, r_ph, r_pw, r_cr, r_vf, r_tf, r_fn, r_ln, r_rl,
          r_ac⟩ := applyRest_fields user2 data
        subst hu2
        refine ⟨fun hn => ?_, fun hn => ?_, fun hn => ?_, fun hn => ?_,
          fun hn => ?_, fun hn => ?_, ?_, ?_, ?_, ?_, ?_⟩
        · rw [r_em, p_em, e_em (by rw [hn]; rfl)]
        · rw [r_ph, p_ph (by rw [hn]; rfl), e_ph]
        · rw [r_fn hn, p_fn, e_fn]
        · rw [r_ln hn, p_ln, e_ln]
        · rw [r_rl hn, p_rl, e_rl]
        · rw [r_ac hn, p_ac, e_ac]
        · rw [r_id, p_id, e_id]
        · rw [r_pw, p_pw, e_pw]
        · rw [r_cr, p_cr, e_cr]
        · rw [r_vf, p_vf, e_vf]
        · rw [r_tf, p_tf, e_tf]

/-- Witness for C9: on the sample table, the empty patch is a no-op, and a
first-name-only patch changes only the first name. -/
theorem C9_witness :
    update sampleDb "u1" emptyPatch = .ok (sampleDb, sampleActive) ∧
    ((samplePatch.email = none → samplePatched.email = sampleActive.email) ∧
     (samplePatch.phone = none → samplePatched.phone = sampleActive.phone) ∧
     (samplePatch.first_name = none →
       samplePatched.first_name = sampleActive.first_name) ∧
     (samplePatch.last_name = none →
       samplePatched.last_name = sampleActive.last_name) ∧
     (samplePatch.role = none → samplePatched.role = sampleActive.role) ∧
     (samplePatch.is_active = none →
       samplePatched.is_active = sampleActive.is_active) ∧
     samplePatched.id = sampleActive.id ∧
     samplePatched.password_hash = sampleActive.password_hash ∧
     samplePatched.created_at = sampleActive.created_at ∧
     samplePatched.is_verified = sampleActive.is_verified ∧
     samplePatched.is_two_factor_enabled
       = sampleActive.is_two_factor_enabled) :=
  ⟨(C9_empty_patch_and_frame sampleDb "u1" sampleActive
      (by decide) (by decide)).1,
   (C9_empty_patch_and_frame sampleDb "u1" sampleActive
      (by decide) (by decide)).2
     samplePatch (replaceUser sampleDb samplePatched) samplePatched rfl⟩

/-- C10: `update` tests the patch email and phone by truthiness, not by
presence — a present-but-empty email or phone behaves exactly like an absent
one (same result, no uniqueness check) — and a stored phone can never be
cleared through `update`: a successful update of a user with a phone yields a
user that still has a phone. -/
theorem C10_truthiness_and_phone_kept (db : List User) (uid : String)
    (data : UserUpdate) :
    update db uid { data with email := some "" }
      = update db uid { data with email := none } ∧
    update db uid { data with phone := some "" }
      = update db uid { data with phone := none } ∧
    (∀ user p db2 u2, get_by_id db uid = some user → user.phone = some p →
      update db uid data = .ok (db2, u2) → u2.phone.isSome = true) := by
  refine ⟨?_, ?_, ?_⟩
  · cases data with
    | mk em fn ln ph rl ia =>
      cases hg : get_by_id db uid with
      | none => simp [update, hg]
      | some user =>
        simp [update, hg, applyEmail, applyPhone, applyRest, strOptTruthy]
  · cases data with
    | mk em fn ln ph rl ia =>
      cases hg : get_by_id db uid with
      | none => simp [update, hg]
      | some user =>
        simp [update, hg, applyEmail, applyPhone, applyRest, strOptTruthy]
  · intro user p db2 u2 hg hp h
    rw [update_match db uid data user hg] at h
    cases hae : applyEmail db user data with
    | error e =>
      simp [hae] at h
    | ok user1 =>
      simp only [hae] at h
      cases hap : applyPhone db user1 data with
      | error e =>
        simp [hap] at h
      | ok user2 =>
        simp only [hap, Except.ok.injEq, Prod.mk.injEq] at h
        obtain ⟨hdb2, hu2⟩ := h
        subst hu2
        obtain ⟨_, _, _, e_ph, _, _, _, _, _, _, _⟩ :=
          applyEmail_ok_fields db user data user1 hae
        obtain ⟨_, _, _, _, _, _, _, _, _, _, _, p_or⟩ :=
          applyPhone_ok_fields db user1 data user2 hap
        obtain ⟨_, _, r_ph, _, _, _, _, _, _, _, _⟩ :=
          applyRest_fields user2 data
        rw [r_ph]
        cases p_or with
        | inl hk =>
          rw [hk, e_ph, hp]
          rfl
        | inr hor =>
          obtain ⟨htr, hph2⟩ := hor
          rw [hph2]
          cases hdp : data.phone with
          | none =>
            rw [hdp] at htr
            simp [strOptTruthy] at htr
          | some s => rfl

/-- Witness for C10: on the sample table, an empty-string email patch behaves
like an absent email, an empty-string phone patch behaves like an absent
phone, and the no-op update keeps the active user's phone set. -/
theorem C10_witness :
    update sampleDb "u1" { emptyPatch with email := some "" }
      = update sampleDb "u1" { emptyPatch with email := none } ∧
    update sampleDb "u1" { emptyPatch with phone := some "" }
      = update sampleDb "u1" { emptyPatch with phone := none } ∧
    get_by_id sampleDb "u1" = some sampleActive ∧
    sampleActive.phone = some "111" ∧
    update sampleDb "u1" emptyPatch = .ok (sampleDb, sampleActive) ∧
    sampleActive.phone.isSome = true :=
  ⟨(C10_truthiness_and_phone_kept sampleDb "u1" emptyPatch).1,
   (C10_truthiness_and_phone_kept sampleDb "u1" emptyPatch).2.1,
   by decide, by decide, rfl,
   (C10_truthiness_and_phone_kept sampleDb "u1" emptyPatch).2.2
     sampleActive "111" sampleDb sampleActive (by decide) (by decide)
     rfl⟩

end EKSMS
